import Mathlib

/-!
# HydraEdge extractor and payload schema: a verification development

This file gives a shallow embedding of the payload-producing core of the
`hydraedge` repository and proves/refutes the stated properties of its
specification.

Embedded source units:

* `hydraedge/extractor/tuple_extractor.py` — the pydantic models `Node`,
  `Edge`, `Payload`, the role table `_propbank_to_role`, and the graph
  assembler `to_json`.
* `hydraedge/extractor/wp7_rulemap.py` — `RuleMapStage.run`, the frame-to-tuple
  builder with its per-predicate event-id memo `_get_eid`.
* `src/hydraedge/schema/chv_v24.json` — the v2.4 payload JSON schema, together
  with a model of the absent `hydraedge.schema.validator.validate_payload`
  entry point.

External collaborators of the code (the SRL frame source, the alias
dictionary `resolve_alias`, and the CHV encoder `encode_chv` /
`filler_vec_from_token`) are passed as explicit function parameters, exactly
as the specification declares them to be out-of-scope boundaries.  The
`hashlib.md5` hash used for the stub id is embedded in full below, so the
assembler is a closed executable function of its inputs.
-/

/-! ## Python string primitives

Helpers mirroring the Python `str` operations that the source uses:
`s[:n]` slicing, `str.find` (first occurrence or `-1`), `str.lower`,
`str.strip`.  Strings are treated as their lists of unicode code points,
which is exactly Python 3 string semantics.
-/

/-- Python slicing `s[:n]`: the first `n` characters of `s` (all of `s` when
`n` exceeds its length). -/
def pyTake (n : Nat) (s : String) : String :=
  String.mk (s.data.take n)

/-- First index at which `pat` occurs in `cs`, scanning left to right
(`None` when `pat` does not occur).  An empty `pat` occurs at index 0. -/
def charsFind (cs pat : List Char) : Option Nat :=
  if pat.isPrefixOf cs then some 0
  else
    match cs with
    | [] => none
    | _ :: t => (charsFind t pat).map (· + 1)

/-- Python `s.find(sub)`: index of the first occurrence of `sub` in `s`,
or `-1` when `sub` does not occur. -/
def pyFind (s sub : String) : Int :=
  match charsFind s.data sub.data with
  | some i => Int.ofNat i
  | none => -1

/-- Python `s.lower()` (ASCII case folding, which covers all inputs the
repository exercises). -/
def pyLower (s : String) : String :=
  String.mk (s.data.map Char.toLower)

/-- Whitespace test used by Python `str.strip()` with no argument. -/
def pySpace (c : Char) : Bool :=
  c == ' ' || c == '\t' || c == '\n' || c == '\r' || c == '\x0b' || c == '\x0c'

/-- Python `s.strip()`: remove leading and trailing whitespace. -/
def pyStrip (s : String) : String :=
  String.mk (((s.data.dropWhile pySpace).reverse.dropWhile pySpace).reverse)

/-! ## MD5

A complete executable MD5 (RFC 1321) over `Nat` arithmetic, used by
`to_json` for the deterministic stub id
`f"stub:{hashlib.md5(sentence.encode()).hexdigest()[:6]}"`.
All 32-bit quantities are `Nat`s reduced modulo `2 ^ 32`.
-/

/-- Reduce modulo `2 ^ 32`. -/
def u32 (n : Nat) : Nat := n % 4294967296

/-- Rotate a 32-bit word left by `s` bits. -/
def rotl32 (x s : Nat) : Nat :=
  u32 (x * 2 ^ s) + (x % 4294967296) / 2 ^ (32 - s)

/-- Bitwise complement of a 32-bit word. -/
def not32 (x : Nat) : Nat := Nat.xor (x % 4294967296) 4294967295

/-- The 64 MD5 sine-derived constants `K[i] = floor(2^32 * |sin(i+1)|)`. -/
def md5K : List Nat :=
  [3614090360, 3905402710, 606105819, 3250441966, 4118548399, 1200080426,
   2821735955, 4249261313, 1770035416, 2336552879, 4294925233, 2304563134,
   1804603682, 4254626195, 2792965006, 1236535329, 4129170786, 3225465664,
   643717713, 3921069994, 3593408605, 38016083, 3634488961, 3889429448,
   568446438, 3275163606, 4107603335, 1163531501, 2850285829, 4243563512,
   1735328473, 2368359562, 4294588738, 2272392833, 1839030562, 4259657740,
   2763975236, 1272893353, 4139469664, 3200236656, 681279174, 3936430074,
   3572445317, 76029189, 3654602809, 3873151461, 530742520, 3299628645,
   4096336452, 1126891415, 2878612391, 4237533241, 1700485571, 2399980690,
   4293915773, 2240044497, 1873313359, 4264355552, 2734768916, 1309151649,
   4149444226, 3174756917, 718787259, 3951481745]

/-- The 64 MD5 per-round left-rotation amounts. -/
def md5S : List Nat :=
  [7, 12, 17, 22, 7, 12, 17, 22, 7, 12, 17, 22, 7, 12, 17, 22,
   5, 9, 14, 20, 5, 9, 14, 20, 5, 9, 14, 20, 5, 9, 14, 20,
   4, 11, 16, 23, 4, 11, 16, 23, 4, 11, 16, 23, 4, 11, 16, 23,
   6, 10, 15, 21, 6, 10, 15, 21, 6, 10, 15, 21, 6, 10, 15, 21]

/-- UTF-8 encoding of a single code point, as Python `str.encode()` performs
byte by byte. -/
def utf8Bytes (c : Char) : List Nat :=
  let n := c.toNat
  if n < 128 then [n]
  else if n < 2048 then [192 + n / 64, 128 + n % 64]
  else if n < 65536 then
    [224 + n / 4096, 128 + (n / 64) % 64, 128 + n % 64]
  else
    [240 + n / 262144, 128 + (n / 4096) % 64, 128 + (n / 64) % 64,
     128 + n % 64]

/-- Python `sentence.encode()`: the UTF-8 bytes of a string. -/
def strBytes (s : String) : List Nat :=
  (s.data.map utf8Bytes).flatten

/-- Little-endian bytes (length `k`) of a natural number. -/
def leBytes (k n : Nat) : List Nat :=
  match k with
  | 0 => []
  | k + 1 => n % 256 :: leBytes k (n / 256)

/-- MD5 padding: append `0x80`, zero bytes to 56 mod 64, then the original
bit length as a 64-bit little-endian quantity. -/
def md5Pad (msg : List Nat) : List Nat :=
  let padLen := (55 + 64 - msg.length % 64) % 64 + 1
  msg ++ (128 :: List.replicate (padLen - 1) 0) ++
    leBytes 8 (msg.length * 8 % 2 ^ 64)

/-- Split a list into chunks of 64 elements (structural recursion on a fuel
bound, so that the function reduces inside the kernel; the fuel
`l.length` always suffices because every step drops at least one
element of a nonempty list). -/
def chunksAux : Nat → List Nat → List (List Nat)
  | 0, _ => []
  | _, [] => []
  | fuel + 1, l => l.take 64 :: chunksAux fuel (l.drop 64)

/-- Split a list into chunks of 64 elements. -/
def chunks64 (l : List Nat) : List (List Nat) :=
  chunksAux l.length l

/-- The 16 little-endian 32-bit words of one 64-byte chunk. -/
def chunkWords (chunk : List Nat) : List Nat :=
  (List.range 16).map fun g =>
    (chunk.getD (4 * g) 0) + 256 * (chunk.getD (4 * g + 1) 0) +
      65536 * (chunk.getD (4 * g + 2) 0) +
      16777216 * (chunk.getD (4 * g + 3) 0)

/-- One of the 64 MD5 steps: given the step index `i`, the chunk words `m`,
and the running state `(a, b, c, d)`, produce the next state. -/
def md5Step (m : List Nat) (st : Nat × Nat × Nat × Nat) (i : Nat) :
    Nat × Nat × Nat × Nat :=
  let (a, b, c, d) := st
  let (f, g) :=
    if i < 16 then
      (Nat.lor (Nat.land b c) (Nat.land (not32 b) d), i)
    else if i < 32 then
      (Nat.lor (Nat.land d b) (Nat.land (not32 d) c), (5 * i + 1) % 16)
    else if i < 48 then
      (Nat.xor (Nat.xor b c) d, (3 * i + 5) % 16)
    else
      (Nat.xor c (Nat.lor b (not32 d)), (7 * i) % 16)
  let f := u32 (f + a + md5K.getD i 0 + m.getD g 0)
  (d, u32 (b + rotl32 f (md5S.getD i 0)), b, c)

/-- Process one 64-byte chunk, updating the four MD5 registers. -/
def md5Chunk (regs : Nat × Nat × Nat × Nat) (chunk : List Nat) :
    Nat × Nat × Nat × Nat :=
  let m := chunkWords chunk
  let (a, b, c, d) := (List.range 64).foldl (md5Step m) regs
  let (a0, b0, c0, d0) := regs
  (u32 (a0 + a), u32 (b0 + b), u32 (c0 + c), u32 (d0 + d))

/-- Lowercase hexadecimal digit. -/
def hexDigit (n : Nat) : Char :=
  "0123456789abcdef".data.getD n '0'

/-- Two-digit lowercase hex of one byte. -/
def byteHex (b : Nat) : List Char :=
  [hexDigit (b / 16 % 16), hexDigit (b % 16)]

/-- Hex rendering of a 32-bit register, little-endian byte order as in the
MD5 digest. -/
def wordHex (w : Nat) : List Char :=
  ((leBytes 4 w).map byteHex).flatten

/-- `hashlib.md5(s.encode()).hexdigest()`: the 32-character lowercase hex
MD5 digest of the UTF-8 encoding of `s`. -/
def md5hex (s : String) : String :=
  let regs :=
    (chunks64 (md5Pad (strBytes s))).foldl md5Chunk
      (1732584193, 4023233417, 2562383102, 271733878)
  let (a, b, c, d) := regs
  String.mk (wordHex a ++ wordHex b ++ wordHex c ++ wordHex d)

set_option maxRecDepth 100000 in
example : md5hex "" = "d41d8cd98f00b204e9800998ecf8427e" := by decide
set_option maxRecDepth 100000 in
example : md5hex "abc" = "900150983cd24fb0d6963f7d28e17f72" := by decide
set_option maxRecDepth 100000 in
example : md5hex "Hi." = "7b00b6d52a564b31999eb3de9ce0980b" := by decide

/-! ## `hydraedge/extractor/tuple_extractor.py`: the data model

The pydantic models, with pydantic defaults rendered as Lean default field
values.  Field names, order and defaults follow the source:
`ntype` defaults to `"spo"`, `eid_set` to the empty list, and `char_start` /
`char_end` default to `0`.
-/

/-- `class Node(BaseModel)` of `tuple_extractor.py`. -/
structure Node where
  id : String
  filler : String
  alias_key : String
  roles : List String
  ntype : String := "spo"
  eid_set : List String := []
  char_start : Int := 0
  char_end : Int := 0
deriving Repr, DecidableEq

/-- `class Edge(BaseModel)` of `tuple_extractor.py`. -/
structure Edge where
  source : String
  target : String
  kind : String
deriving Repr, DecidableEq

/-- A hull entry of `layouts.hulls` as described by the v2.4 schema
(`eid` optional, `members` a list of node ids).  `to_json` itself never
builds one: it always passes `{"hulls": []}`. -/
structure Hull where
  eid : Option String := none
  members : List String := []
deriving Repr, DecidableEq

/-- The `layouts` dictionary of a payload; `to_json` hands the literal
dict `{"hulls": []}` to the `Payload` constructor, which this record
renders with its single key as a field. -/
structure Layouts where
  hulls : List Hull
deriving Repr, DecidableEq

/-- `class Payload(BaseModel)` of `tuple_extractor.py`. -/
structure Payload where
  version : String
  sentence : String
  nodes : List Node
  edges : List Edge
  layouts : Layouts
  chv : List Int
deriving Repr, DecidableEq

/-- One SRL frame as produced by the frame source boundary
(`predict(sentence)` or the regex fallback `_frames`): a predicate span
`verb`, the sentence `words`, and the BIO `tags` (parallel to `words`). -/
structure Frame where
  verb : String
  words : List String
  tags : List String
deriving Repr, DecidableEq

/-- Python `str.startswith`, as prefix test on the character list. -/
def pyStartsWith (s pre : String) : Bool :=
  pre.data.isPrefixOf s.data

/-- `_propbank_to_role` of `tuple_extractor.py`:

```python
def _propbank_to_role(tag):
    if tag == "B-ARG0": return "Subject"
    if tag in ("B-ARG1", "B-ARG2"): return "Object"
    if tag.startswith("B-ARGM-LOC"): return "IndirectObject"
    if tag.startswith("B-ARGM-MNR"): return "Attr"
    return None
``` -/
def propbank_to_role (tag : String) : Option String :=
  if tag == "B-ARG0" then some "Subject"
  else if tag == "B-ARG1" || tag == "B-ARG2" then some "Object"
  else if pyStartsWith tag "B-ARGM-LOC" then some "IndirectObject"
  else if pyStartsWith tag "B-ARGM-MNR" then some "Attr"
  else none

/-- The mutable state threaded through `to_json`: the accumulating
`nodes`, `edges` and `tuples` lists and the event counter, which the
source initialises to `1` (`eid_counter = 1`). -/
structure AsmState where
  nodes : List Node := []
  edges : List Edge := []
  tuples : List (String × String) := []
  eid_counter : Nat := 1
deriving Repr

/-- The body of the inner loop of `to_json` over
`zip(fr["words"], fr["tags"])`:

```python
role = _propbank_to_role(tag)
if role is None:
    continue
nid = f"spo:{w}@{eid}"
if nid not in {n.id for n in nodes}:
    nodes.append(Node(id=nid, filler=w, alias_key=resolve_alias(w),
                      roles=[role], eid_set=[eid],
                      char_start=sentence.find(w),
                      char_end=sentence.find(w) + len(w)))
kind = {"Subject": "S-P", "Object": "P-O"}.get(role, "attr")
edges.append(Edge(source=pred_id if kind == "P-O" else nid,
                  target=nid if kind == "P-O" else pred_id,
                  kind=kind))
tuples.append((role, filler_vec_from_token(w)))
```

`resolve_alias` is the external alias-dictionary boundary, passed in as a
function; the pair `(role, w)` stands for the tuple
`(role, filler_vec_from_token(w))`, whose second component only ever flows
into the external CHV encoder. -/
def processArg (resolve_alias : String → String) (sentence eid pred_id : String)
    (st : AsmState) (wt : String × String) : AsmState :=
  let (w, tag) := wt
  match propbank_to_role tag with
  | none => st
  | some role =>
    let nid := "spo:" ++ w ++ "@" ++ eid
    let nodes :=
      if (st.nodes.map Node.id).contains nid then st.nodes
      else
        st.nodes ++
          [{ id := nid, filler := w, alias_key := resolve_alias w,
             roles := [role], eid_set := [eid],
             char_start := pyFind sentence w,
             char_end := pyFind sentence w + (w.length : Int) }]
    let kind :=
      (([("Subject", "S-P"), ("Object", "P-O")] :
          List (String × String)).lookup role).getD "attr"
    { st with
      nodes := nodes,
      edges := st.edges ++
        [{ source := if kind == "P-O" then pred_id else nid,
           target := if kind == "P-O" then nid else pred_id,
           kind := kind }],
      tuples := st.tuples ++ [(role, w)] }

/-- The body of the outer loop of `to_json` over `frames`:

```python
eid = f"e{eid_counter}"
pred = fr["verb"]
pred_id = f"spo:{pred}@{eid}"
nodes.append(Node(id=pred_id, filler=pred, alias_key=resolve_alias(pred),
                  roles=["Predicate"], eid_set=[eid],
                  char_start=sentence.find(pred),
                  char_end=sentence.find(pred) + len(pred)))
for w, tag in zip(fr["words"], fr["tags"]):
    ...
eid_counter += 1
``` -/
def processFrame (resolve_alias : String → String) (sentence : String)
    (st : AsmState) (fr : Frame) : AsmState :=
  let eid := "e" ++ toString st.eid_counter
  let pred := fr.verb
  let pred_id := "spo:" ++ pred ++ "@" ++ eid
  let st :=
    { st with nodes := st.nodes ++
        [{ id := pred_id, filler := pred, alias_key := resolve_alias pred,
           roles := ["Predicate"], eid_set := [eid],
           char_start := pyFind sentence pred,
           char_end := pyFind sentence pred + (pred.length : Int) }] }
  let st := (fr.words.zip fr.tags).foldl
    (processArg resolve_alias sentence eid pred_id) st
  { st with eid_counter := st.eid_counter + 1 }

/-- `to_json` of `tuple_extractor.py`, with the external boundaries passed
in as functions: `resolve_alias` (the alias dictionary) and `encode_chv`
(the CHV encoder composed with `filler_vec_from_token`; it receives the
`(role, token)` tuples and returns the `chv.astype(int).tolist()` vector).
The frame list is the output of the frame-source boundary
(`_frames(sentence)` in the source).

```python
def to_json(sentence, meta=None):
    meta = meta or {}
    frames = _frames(sentence)
    nodes, edges, tuples = [], [], []
    eid_counter = 1
    if not frames:
        stub_id = f"stub:{hashlib.md5(sentence.encode()).hexdigest()[:6]}"
        nodes.append(Node(id=stub_id, filler=sentence,
                          alias_key=sentence.lower(),
                          roles=["Sentence"], ntype="SentenceStub"))
    else:
        for fr in frames:
            ...
    chv = encode_chv(tuples) if tuples else np.ones(4096, dtype=np.int8)
    chv_list = chv.astype(int).tolist()
    return Payload(version="2.4", sentence=sentence, nodes=nodes,
                   edges=edges, layouts={"hulls": []}, chv=chv_list)
``` -/
def to_json (resolve_alias : String → String)
    (encode_chv : List (String × String) → List Int)
    (frames : List Frame) (sentence : String) : Payload :=
  let st : AsmState :=
    if frames.isEmpty then
      let stub_id := "stub:" ++ pyTake 6 (md5hex sentence)
      { nodes := [{ id := stub_id, filler := sentence,
                    alias_key := pyLower sentence,
                    roles := ["Sentence"], ntype := "SentenceStub" }] }
    else
      frames.foldl (processFrame resolve_alias sentence) {}
  let chv_list :=
    if st.tuples.isEmpty then List.replicate 4096 1
    else encode_chv st.tuples
  { version := "2.4", sentence := sentence, nodes := st.nodes,
    edges := st.edges, layouts := { hulls := [] }, chv := chv_list }

/-! ## `hydraedge/extractor/wp7_rulemap.py`: the frame-to-tuple builder

`RuleMapStage.run` reads `doc`, `frames`, `alias_map` and `may_need_stub`
from the pipeline context, converts each SRL frame into a
`{"eid", "role", "span"}` tuple, injects a stub tuple when allowed and
needed, attaches alias keys, and writes the tuples plus a debug record
back.  `uuid.uuid4()` is operating-system randomness: it is modelled as a
supply `uuids : Nat → String` of draw results, consumed left to right (the
source truncates each draw with `[:8]`).
-/

/-- A frame as consumed by `RuleMapStage.run`:
`{"predicate": ..., "role": ..., "span": ...}`. -/
structure RMFrame where
  predicate : String
  role : String
  span : String
deriving Repr, DecidableEq

/-- A raw tuple produced by `RuleMapStage.run`.  The Python dict starts
with keys `eid`, `role`, `span`; the alias pass may later add an
`alias_key` key, rendered here as an `Option` field. -/
structure RMTuple where
  eid : String
  role : String
  span : String
  alias_key : Option String := none
deriving Repr, DecidableEq

/-- The state of `RuleMapStage.run` while looping over frames: the
`eid_of_pred` memo dictionary of `_get_eid`, the number of `uuid4` draws
consumed so far, and the accumulated tuples. -/
structure RMState where
  memo : List (String × String) := []
  draws : Nat := 0
  tuples : List RMTuple := []
deriving Repr

/-- `_get_eid` of `RuleMapStage.run`:

```python
def _get_eid(pred):
    if pred not in eid_of_pred:
        eid_of_pred[pred] = str(uuid.uuid4())[:8]
    return eid_of_pred[pred]
``` -/
def getEid (uuids : Nat → String) (st : RMState) (pred : String) :
    String × RMState :=
  match st.memo.lookup pred with
  | some e => (e, st)
  | none =>
    let e := pyTake 8 (uuids st.draws)
    (e, { st with memo := st.memo ++ [(pred, e)], draws := st.draws + 1 })

/-- The frame loop body of `RuleMapStage.run`:

```python
pred = fr["predicate"]
role = fr["role"]
span = fr["span"].strip()
eid = _get_eid(pred)
tuples.append({"eid": eid, "role": role, "span": span})
``` -/
def rmStep (uuids : Nat → String) (st : RMState) (fr : RMFrame) : RMState :=
  let (eid, st) := getEid uuids st fr.predicate
  { st with tuples := st.tuples ++
      [{ eid := eid, role := fr.role, span := pyStrip fr.span }] }

/-- The alias pass of `RuleMapStage.run`:

```python
surface = tup["span"].lower()
alias = alias_map.get(surface)
if alias:
    tup["alias_key"] = alias
```

Note Python truthiness: a present but empty alias string is not attached. -/
def attachAlias (alias_map : List (String × String)) (tup : RMTuple) :
    RMTuple :=
  match alias_map.lookup (pyLower tup.span) with
  | some a => if a == "" then tup else { tup with alias_key := some a }
  | none => tup

/-- The debug record `ctx.debug[self.name]` written by `RuleMapStage.run`. -/
structure RMDebug where
  n_predicates : Nat
  n_tuples : Nat
  stub_injected : Bool
deriving Repr, DecidableEq

/-- `RuleMapStage.run`, returning the `tuples` list written to
`ctx.data["tuples"]` together with the debug record:

```python
for fr in frames: ...              # rmStep
if ctx.data["may_need_stub"] and not tuples:
    eid = str(uuid.uuid4())[:8]
    tuples.append({"eid": eid, "role": "SentenceStub", "span": "[stub]"})
for tup in tuples: ...             # attachAlias
ctx.data["tuples"] = tuples
ctx.debug[self.name] = {"n_predicates": len(eid_of_pred),
                        "n_tuples": len(tuples),
                        "stub_injected": ctx.data["may_need_stub"] and not frames}
``` -/
def rulemapRun (uuids : Nat → String) (frames : List RMFrame)
    (alias_map : List (String × String)) (may_need_stub : Bool) :
    List RMTuple × RMDebug :=
  let st := frames.foldl (rmStep uuids) {}
  let st :=
    if may_need_stub && st.tuples.isEmpty then
      let eid := pyTake 8 (uuids st.draws)
      { st with tuples := st.tuples ++
          [{ eid := eid, role := "SentenceStub", span := "[stub]" }] }
    else st
  let tuples := st.tuples.map (attachAlias alias_map)
  (tuples,
   { n_predicates := st.memo.length, n_tuples := tuples.length,
     stub_injected := may_need_stub && frames.isEmpty })

/-! ## `src/hydraedge/schema/chv_v24.json`: the payload schema

A JSON value model, the serialization of a `Payload` (pydantic dumps every
field of every model), the enumerations and required-key lists copied from
`chv_v24.json`, and a checker for that schema document.
-/

/-- JSON values, as far as the payload format needs them. -/
inductive Json where
  | str (s : String)
  | int (n : Int)
  | bool (b : Bool)
  | null
  | arr (items : List Json)
  | obj (fields : List (String × Json))
deriving Repr

/-- Serialization of a `Node`: the pydantic model dump, one key per field. -/
def Node.toJson (n : Node) : Json :=
  Json.obj
    [("id", Json.str n.id), ("filler", Json.str n.filler),
     ("alias_key", Json.str n.alias_key),
     ("roles", Json.arr (n.roles.map Json.str)),
     ("ntype", Json.str n.ntype),
     ("eid_set", Json.arr (n.eid_set.map Json.str)),
     ("char_start", Json.int n.char_start),
     ("char_end", Json.int n.char_end)]

/-- Serialization of an `Edge`. -/
def Edge.toJson (e : Edge) : Json :=
  Json.obj
    [("source", Json.str e.source), ("target", Json.str e.target),
     ("kind", Json.str e.kind)]

/-- Serialization of a `Hull` (the optional `eid` key is emitted only when
present). -/
def Hull.toJson (h : Hull) : Json :=
  Json.obj
    ((match h.eid with
      | some e => [("eid", Json.str e)]
      | none => []) ++
     [("members", Json.arr (h.members.map Json.str))])

/-- Serialization of a `Payload`: the JSON document `to_json` returns,
with the `layouts` dict and the `chv` vector included, as the pydantic
dump emits them. -/
def Payload.toJson (p : Payload) : Json :=
  Json.obj
    [("version", Json.str p.version), ("sentence", Json.str p.sentence),
     ("nodes", Json.arr (p.nodes.map Node.toJson)),
     ("edges", Json.arr (p.edges.map Edge.toJson)),
     ("layouts", Json.obj [("hulls", Json.arr (p.layouts.hulls.map Hull.toJson))]),
     ("chv", Json.arr (p.chv.map Json.int))]

/-- The `ntype` enumeration of `chv_v24.json`. -/
def ntypeEnum : List String := ["spo", "attr", "meta_out", "chv", "event"]

/-- The edge `kind` enumeration of `chv_v24.json`. -/
def kindEnum : List String :=
  ["S-P", "P-O", "attr", "meta", "binder", "event-pred", "subevt"]

/-- The required top-level keys of `chv_v24.json`. -/
def topRequired : List String := ["version", "sentence", "nodes", "edges"]

/-- The declared top-level properties of `chv_v24.json`; together with
`"additionalProperties": false` these are the only keys a payload may
carry.  Note that `chv` is **not** among them. -/
def topProperties : List String :=
  ["version", "sentence", "nodes", "edges", "layouts"]

/-- The required keys of a node object (`nodes.items.required`). -/
def nodeRequired : List String := ["id", "filler", "roles", "eid_set", "ntype"]

/-- The required keys of an edge object (`edges.items.required`). -/
def edgeRequired : List String := ["source", "target", "kind"]

/-- Structural validation errors.  The real validator renders
`requiredProperty k` as the jsonschema message
`JSON-Schema: (k) is a required property`, as the repository notebook
records for the missing-`filler` example. -/
inductive VError where
  | notAnObject (path : String)
  | notAnArray (path : String)
  | notAString (path : String)
  | notAnInteger (path : String)
  | requiredProperty (k : String)
  | additionalProperty (k : String)
  | enumViolation (path value : String)
deriving Repr, DecidableEq

/-- Check an optional property expected to be a string (an absent optional
property raises nothing). -/
def checkStr (path : String) : Option Json → List VError
  | none => []
  | some (Json.str _) => []
  | some _ => [VError.notAString path]

/-- Check an optional property expected to be an array of strings. -/
def checkStrArr (path : String) : Option Json → List VError
  | none => []
  | some (Json.arr xs) =>
    (xs.map fun x =>
      match x with
      | Json.str _ => ([] : List VError)
      | _ => [VError.notAString path]).flatten
  | some _ => [VError.notAnArray path]

/-- Check an optional property expected to be an integer. -/
def checkInt (path : String) : Option Json → List VError
  | none => []
  | some (Json.int _) => []
  | some _ => [VError.notAnInteger path]

/-- Validation of one node object against `nodes.items` of `chv_v24.json`:
required keys `id, filler, roles, eid_set, ntype`; typed properties; the
`ntype` enumeration; and `"additionalProperties": true`, so unknown keys
inside a node raise nothing. -/
def checkNode (j : Json) : List VError :=
  match j with
  | Json.obj kvs =>
    let keys := kvs.map Prod.fst
    (nodeRequired.filter (fun k => !keys.contains k)).map VError.requiredProperty
      ++ checkStr "id" (kvs.lookup "id")
      ++ checkStr "filler" (kvs.lookup "filler")
      ++ checkStr "alias_key" (kvs.lookup "alias_key")
      ++ checkStrArr "roles" (kvs.lookup "roles")
      ++ checkStrArr "eid_set" (kvs.lookup "eid_set")
      ++ (match kvs.lookup "ntype" with
          | none => []
          | some (Json.str v) =>
            if ntypeEnum.contains v then [] else [VError.enumViolation "ntype" v]
          | some _ => [VError.notAString "ntype"])
      ++ checkInt "char_start" (kvs.lookup "char_start")
      ++ checkInt "char_end" (kvs.lookup "char_end")
  | _ => [VError.notAnObject "nodes.items"]

/-- Validation of one edge object against `edges.items` of `chv_v24.json`:
required keys `source, target, kind`; typed properties; the `kind`
enumeration; unknown keys tolerated. -/
def checkEdge (j : Json) : List VError :=
  match j with
  | Json.obj kvs =>
    let keys := kvs.map Prod.fst
    (edgeRequired.filter (fun k => !keys.contains k)).map VError.requiredProperty
      ++ checkStr "source" (kvs.lookup "source")
      ++ checkStr "target" (kvs.lookup "target")
      ++ (match kvs.lookup "kind" with
          | none => []
          | some (Json.str v) =>
            if kindEnum.contains v then [] else [VError.enumViolation "kind" v]
          | some _ => [VError.notAString "kind"])
  | _ => [VError.notAnObject "edges.items"]

/-- Validation of one hull object against `layouts.hulls.items`:
`members` required (an array of strings), `eid` an optional string,
unknown keys tolerated. -/
def checkHull (j : Json) : List VError :=
  match j with
  | Json.obj kvs =>
    let keys := kvs.map Prod.fst
    ((["members"].filter (fun k => !keys.contains k)).map VError.requiredProperty)
      ++ checkStr "eid" (kvs.lookup "eid")
      ++ checkStrArr "members" (kvs.lookup "members")
  | _ => [VError.notAnObject "layouts.hulls.items"]

/-- Modelled from the spec: the validator entry point
`hydraedge.schema.validator.validate_payload` is not under `src/`; only the
schema document `src/hydraedge/schema/chv_v24.json` and the notebook
recording its behaviour are.  Per the spec (§6) the validator checks a
payload against the v2.4 JSON schema and returns `(ok, errors)` without
raising; this model applies exactly the constraints the schema document
states: required top-level keys, a closed set of top-level properties
(`"additionalProperties": false`), property types, the `ntype` and `kind`
enumerations inside the open node/edge objects, and the optional
`layouts.hulls` shape.  `ok` is true exactly when no error was found. -/
def validate_payload (j : Json) : Bool × List VError :=
  match j with
  | Json.obj kvs =>
    let keys := kvs.map Prod.fst
    let errs :=
      (topRequired.filter (fun k => !keys.contains k)).map VError.requiredProperty
        ++ (keys.filter (fun k => !topProperties.contains k)).map
            VError.additionalProperty
        ++ checkStr "version" (kvs.lookup "version")
        ++ checkStr "sentence" (kvs.lookup "sentence")
        ++ (match kvs.lookup "nodes" with
            | none => []
            | some (Json.arr xs) => (xs.map checkNode).flatten
            | some _ => [VError.notAnArray "nodes"])
        ++ (match kvs.lookup "edges" with
            | none => []
            | some (Json.arr xs) => (xs.map checkEdge).flatten
            | some _ => [VError.notAnArray "edges"])
        ++ (match kvs.lookup "layouts" with
            | none => []
            | some (Json.obj lkvs) =>
              (match lkvs.lookup "hulls" with
               | none => []
               | some (Json.arr hs) => (hs.map checkHull).flatten
               | some _ => [VError.notAnArray "layouts.hulls"])
            | some _ => [VError.notAnObject "layouts"])
    (errs.isEmpty, errs)
  | _ => (false, [VError.notAnObject "payload"])

/-! ## Spec-side definitions

Definitions following the specification text, used to compare the code
against what the spec asserts (C3), and observation helpers used to state
claims (C5, C6).
-/

/-- Python `s.find(sub, start)`: first occurrence of `sub` at or after
index `start`, or `-1`. -/
def pyFindFrom (s sub : String) (start : Nat) : Int :=
  match charsFind (s.data.drop start) sub.data with
  | some i => Int.ofNat (start + i)
  | none => -1

/-- Modelled from the spec (§4.3 Graph Assembler): the `char_start`
values the spec prescribes for the Predicate nodes — each frame's
predicate span is located at its first occurrence *at or after a running
search cursor*, and the cursor then advances past the found span
(`search cursor advances monotonically to disambiguate repeated words`).
This is the spec's wording, not the code's behaviour; the code is
compared against it in claim C3. -/
def spec_cursor_starts (sentence : String) (frames : List Frame) : List Int :=
  (frames.foldl
    (fun (acc : List Int × Nat) fr =>
      let p := pyFindFrom sentence fr.verb acc.2
      let cursor := if p < 0 then acc.2 else p.toNat + fr.verb.length
      (acc.1 ++ [p], cursor))
    ([], 0)).1

/-- The `char_start` values the code actually assigns to the Predicate
nodes of a payload, in node order. -/
def predicateStarts (p : Payload) : List Int :=
  (p.nodes.filter (fun n => n.roles == ["Predicate"])).map Node.char_start

/-- The distinct event ids observed in a payload: every event id occurring
in some node's `eid_set`, first occurrences kept in order. -/
def observedEids (p : Payload) : List String :=
  ((p.nodes.map Node.eid_set).flatten).dedup

/-- The predicates of a frame list that are new relative to `seen`, in
first-occurrence order: exactly the predicate texts for which
`_get_eid` of `RuleMapStage.run` performs a fresh `uuid4` draw. -/
def newPreds (seen : List String) : List RMFrame → List String
  | [] => []
  | fr :: rest =>
    if seen.contains fr.predicate then newPreds seen rest
    else fr.predicate :: newPreds (seen ++ [fr.predicate]) rest

/-! ## Proof helpers -/

/-- A predicate preserved by every fold step holds of the fold result. -/
theorem foldlRec {α β : Type} {P : α → Prop} {f : α → β → α}
    (h : ∀ a b, P a → P (f a b)) :
    ∀ (l : List β) (a : α), P a → P (l.foldl f a)
  | [], _, ha => ha
  | b :: t, a, ha => foldlRec h t (f a b) (h a b ha)

/-- `List.lookup` into an appended association list. -/
theorem lookupAppend (l₁ l₂ : List (String × String)) (k : String) :
    (l₁ ++ l₂).lookup k =
      match l₁.lookup k with
      | some v => some v
      | none => l₂.lookup k := by
  induction l₁ with
  | nil => simp [List.lookup]
  | cons a t ih =>
    by_cases h : k == a.1 <;> simp [List.lookup, h, ih]

/-- `List.lookup` misses exactly the keys outside the key list. -/
theorem lookupNone (l : List (String × String)) (k : String) :
    l.lookup k = none ↔ (l.map Prod.fst).contains k = false := by
  induction l with
  | nil => simp [List.lookup]
  | cons a t ih =>
    by_cases h : k == a.1 <;> simp [List.lookup, h, ih]

/-- The roles `_propbank_to_role` can produce. -/
theorem propbank_roles (tag role : String)
    (h : propbank_to_role tag = some role) :
    role = "Subject" ∨ role = "Object" ∨ role = "IndirectObject" ∨
      role = "Attr" := by
  unfold propbank_to_role at h
  split_ifs at h <;> simp_all

/-- Unfolding equation for `processArg` on a `(word, tag)` pair. -/
theorem processArg_eq (r : String → String) (s eid pid : String)
    (st : AsmState) (w tag : String) :
    processArg r s eid pid st (w, tag) =
      match propbank_to_role tag with
      | none => st
      | some role =>
        let nid := "spo:" ++ w ++ "@" ++ eid
        let nodes :=
          if (st.nodes.map Node.id).contains nid then st.nodes
          else
            st.nodes ++
              [{ id := nid, filler := w, alias_key := r w,
                 roles := [role], eid_set := [eid],
                 char_start := pyFind s w,
                 char_end := pyFind s w + (w.length : Int) }]
        let kind :=
          (([("Subject", "S-P"), ("Object", "P-O")] :
              List (String × String)).lookup role).getD "attr"
        { st with
          nodes := nodes,
          edges := st.edges ++
            [{ source := if kind == "P-O" then pid else nid,
               target := if kind == "P-O" then nid else pid,
               kind := kind }],
          tuples := st.tuples ++ [(role, w)] } := rfl

/-- A skipped argument (no mapped role) leaves the assembler state
untouched. -/
theorem processArg_none (r : String → String) (s eid pid : String)
    (st : AsmState) (w tag : String)
    (h : propbank_to_role tag = none) :
    processArg r s eid pid st (w, tag) = st := by
  rw [processArg_eq, h]

/-- `processArg` never touches the event counter. -/
theorem processArg_counter (r : String → String) (s eid pid : String)
    (st : AsmState) (wt : String × String) :
    (processArg r s eid pid st wt).eid_counter = st.eid_counter := by
  rcases wt with ⟨w, tag⟩
  rw [processArg_eq]
  rcases h : propbank_to_role tag with _ | role <;> simp

/-- The inner argument fold never touches the event counter. -/
theorem foldArgs_counter (r : String → String) (s eid pid : String)
    (l : List (String × String)) :
    ∀ st : AsmState,
      (l.foldl (processArg r s eid pid) st).eid_counter = st.eid_counter := by
  induction l with
  | nil => intro st; rfl
  | cons x t ih =>
    intro st
    rw [List.foldl_cons, ih, processArg_counter]

/-- `processFrame` advances the event counter by exactly one. -/
theorem processFrame_counter (r : String → String) (s : String)
    (st : AsmState) (fr : Frame) :
    (processFrame r s st fr).eid_counter = st.eid_counter + 1 := by
  unfold processFrame
  simp [foldArgs_counter]

/-- The event counter after folding a frame list counts the frames. -/
theorem foldFrames_counter (r : String → String) (s : String) :
    ∀ (fs : List Frame) (st : AsmState),
      (fs.foldl (processFrame r s) st).eid_counter =
        st.eid_counter + fs.length := by
  intro fs
  induction fs with
  | nil => intro st; simp
  | cons fr rest ih =>
    intro st
    rw [List.foldl_cons, ih, processFrame_counter]
    simp
    omega

/-- Every node after a `processArg` step is an old node or an argument
node: `ntype` is the default `"spo"`, its roles are a single
`_propbank_to_role` role (never `Predicate`), and its character span is
recovered with `sentence.find` from position 0. -/
theorem processArg_nodes (r : String → String) (s eid pid : String)
    (st : AsmState) (wt : String × String) :
    ∀ n ∈ (processArg r s eid pid st wt).nodes,
      n ∈ st.nodes ∨
        (n.ntype = "spo" ∧ n.roles ≠ ["Predicate"] ∧
         n.char_start = pyFind s n.filler ∧
         n.char_end = pyFind s n.filler + (n.filler.length : Int)) := by
  rcases wt with ⟨w, tag⟩
  intro n hn
  rw [processArg_eq] at hn
  rcases hrole : propbank_to_role tag with _ | role <;> rw [hrole] at hn
  · exact Or.inl hn
  · simp only at hn
    by_cases hdup :
      (st.nodes.map Node.id).contains ("spo:" ++ w ++ "@" ++ eid) = true
    · rw [if_pos hdup] at hn
      exact Or.inl hn
    · rw [if_neg hdup] at hn
      rcases List.mem_append.mp hn with h | h
      · exact Or.inl h
      · rcases List.mem_singleton.mp h with rfl
        refine Or.inr ⟨rfl, ?_, rfl, rfl⟩
        intro hroles
        have hpred : role = "Predicate" := by
          simpa using congrArg (fun l => l.headD "") hroles
        rcases propbank_roles tag role hrole with h | h | h | h <;> simp_all

/-- Every node after a `processFrame` step is an old node, the frame's
Predicate node (span recovered with `sentence.find` from position 0), or
an argument node (whose roles are never `["Predicate"]`). -/
theorem processFrame_nodes (r : String → String) (s : String)
    (st : AsmState) (fr : Frame) :
    ∀ n ∈ (processFrame r s st fr).nodes,
      n ∈ st.nodes ∨
        (n.ntype = "spo" ∧
         (n.roles = ["Predicate"] →
            n.char_start = pyFind s n.filler ∧
            n.char_end = pyFind s n.filler + (n.filler.length : Int))) := by
  intro n hn
  refine foldlRec
    (P := fun a : AsmState =>
      ∀ m ∈ a.nodes,
        m ∈ st.nodes ∨
          (m.ntype = "spo" ∧
           (m.roles = ["Predicate"] →
              m.char_start = pyFind s m.filler ∧
              m.char_end = pyFind s m.filler + (m.filler.length : Int))))
    (f := processArg r s ("e" ++ toString st.eid_counter)
      ("spo:" ++ fr.verb ++ "@" ++ ("e" ++ toString st.eid_counter)))
    (fun a b ha => by
      intro m hm
      rcases processArg_nodes r s _ _ a b m hm with h | ⟨h1, h2, h3, h4⟩
      · exact ha m h
      · exact Or.inr ⟨h1, fun hr => absurd hr h2⟩)
    (fr.words.zip fr.tags)
    { st with nodes := st.nodes ++
        [({ id := "spo:" ++ fr.verb ++ "@" ++ ("e" ++ toString st.eid_counter),
            filler := fr.verb, alias_key := r fr.verb,
            roles := ["Predicate"],
            eid_set := ["e" ++ toString st.eid_counter],
            char_start := pyFind s fr.verb,
            char_end := pyFind s fr.verb + (fr.verb.length : Int) } : Node)] }
    ?_ n hn
  intro m hm
  rcases List.mem_append.mp hm with h | h
  · exact Or.inl h
  · rcases List.mem_singleton.mp h with rfl
    exact Or.inr ⟨rfl, fun _ => ⟨rfl, rfl⟩⟩

/-- Every node of a `to_json` payload is either the sentence stub
(`ntype = "SentenceStub"`, role `Sentence`, default character span `0`)
or an spo node whose character span, when it is a Predicate node, was
recovered with `sentence.find` from position 0. -/
theorem to_json_nodes (r : String → String)
    (e : List (String × String) → List Int) (fs : List Frame) (s : String) :
    ∀ n ∈ (to_json r e fs s).nodes,
      (n.ntype = "SentenceStub" ∧ n.roles = ["Sentence"] ∧
       n.char_start = 0 ∧ n.char_end = 0) ∨
        (n.ntype = "spo" ∧
         (n.roles = ["Predicate"] →
            n.char_start = pyFind s n.filler ∧
            n.char_end = pyFind s n.filler + (n.filler.length : Int))) := by
  intro n hn
  have hn2 : n ∈ (if fs.isEmpty then
      ({ nodes := [{ id := "stub:" ++ pyTake 6 (md5hex s), filler := s,
                     alias_key := pyLower s, roles := ["Sentence"],
                     ntype := "SentenceStub" }] } : AsmState)
    else fs.foldl (processFrame r s) {}).nodes := hn
  by_cases hfs : fs.isEmpty = true
  · rw [if_pos hfs] at hn2
    rcases List.mem_singleton.mp hn2 with rfl
    exact Or.inl ⟨rfl, rfl, rfl, rfl⟩
  · rw [if_neg hfs] at hn2
    refine foldlRec
      (P := fun a : AsmState =>
        ∀ m ∈ a.nodes,
          (m.ntype = "SentenceStub" ∧ m.roles = ["Sentence"] ∧
           m.char_start = 0 ∧ m.char_end = 0) ∨
            (m.ntype = "spo" ∧
             (m.roles = ["Predicate"] →
                m.char_start = pyFind s m.filler ∧
                m.char_end = pyFind s m.filler + (m.filler.length : Int))))
      (f := processFrame r s)
      (fun a b ha => by
        intro m hm
        rcases processFrame_nodes r s a b m hm with h | h
        · exact ha m h
        · exact Or.inr h)
      fs {} ?_ n hn2
    intro m hm
    simp at hm

/-- The edge `to_json` creates for a mapped argument `w` of role `role`
within the event `eid` whose Predicate node id is `pid`: kind is looked
up in `{"Subject": "S-P", "Object": "P-O"}` with default `"attr"`, and
the edge runs `argument → predicate` except for `P-O`, which runs
`predicate → argument`. -/
def edgeFor (pid eid w role : String) : Edge :=
  let nid := "spo:" ++ w ++ "@" ++ eid
  let kind :=
    (([("Subject", "S-P"), ("Object", "P-O")] :
        List (String × String)).lookup role).getD "attr"
  { source := if kind == "P-O" then pid else nid,
    target := if kind == "P-O" then nid else pid,
    kind := kind }

/-- `processArg` only ever appends to the edge list. -/
theorem processArg_edges_mono (r : String → String) (s eid pid : String)
    (st : AsmState) (wt : String × String) (e₀ : Edge)
    (h : e₀ ∈ st.edges) : e₀ ∈ (processArg r s eid pid st wt).edges := by
  rcases wt with ⟨w, tag⟩
  rw [processArg_eq]
  rcases hrole : propbank_to_role tag with _ | role
  · exact h
  · exact List.mem_append_left _ h

/-- `processFrame` only ever appends to the edge list. -/
theorem processFrame_edges_mono (r : String → String) (s : String)
    (st : AsmState) (fr : Frame) (e₀ : Edge)
    (h : e₀ ∈ st.edges) : e₀ ∈ (processFrame r s st fr).edges := by
  refine foldlRec (P := fun a : AsmState => e₀ ∈ a.edges)
    (f := processArg r s ("e" ++ toString st.eid_counter)
      ("spo:" ++ fr.verb ++ "@" ++ ("e" ++ toString st.eid_counter)))
    (fun a b ha => processArg_edges_mono r s _ _ a b e₀ ha)
    (fr.words.zip fr.tags) _ h

/-- Processing an argument list that contains a mapped `(word, tag)` pair
puts the corresponding edge into the edge list. -/
theorem foldArgs_edge_mem (r : String → String) (s eid pid : String) :
    ∀ (l : List (String × String)) (st : AsmState) (w tag role : String),
      (w, tag) ∈ l → propbank_to_role tag = some role →
      edgeFor pid eid w role ∈
        (l.foldl (processArg r s eid pid) st).edges := by
  intro l
  induction l with
  | nil => intro st w tag role h; simp at h
  | cons x t ih =>
    intro st w tag role hmem hrole
    rw [List.foldl_cons]
    rcases List.mem_cons.mp hmem with rfl | h
    · refine foldlRec (P := fun a : AsmState => edgeFor pid eid w role ∈ a.edges)
        (f := processArg r s eid pid)
        (fun a b ha => processArg_edges_mono r s eid pid a b _ ha) t _ ?_
      rw [processArg_eq, hrole]
      exact List.mem_append_right _ (List.mem_singleton.mpr rfl)
    · exact ih _ w tag role h hrole

/-- Processing a frame whose word/tag zip contains a mapped pair puts the
corresponding edge (scoped to the frame's event id) into the edge list. -/
theorem processFrame_edge_mem (r : String → String) (s : String)
    (st : AsmState) (fr : Frame) (w tag role : String)
    (hmem : (w, tag) ∈ fr.words.zip fr.tags)
    (hrole : propbank_to_role tag = some role) :
    edgeFor ("spo:" ++ fr.verb ++ "@" ++ ("e" ++ toString st.eid_counter))
        ("e" ++ toString st.eid_counter) w role ∈
      (processFrame r s st fr).edges :=
  foldArgs_edge_mem r s _ _ (fr.words.zip fr.tags) _ w tag role hmem hrole

/-- After folding a frame list, every mapped argument pair of the `i`-th
frame has produced its edge, scoped to event id
`e(eid_counter₀ + i)`. -/
theorem foldFrames_edge_mem (r : String → String) (s : String) :
    ∀ (fs : List Frame) (st : AsmState) (i : Nat) (hi : i < fs.length)
      (w tag role : String),
      (w, tag) ∈ (fs[i]).words.zip (fs[i]).tags →
      propbank_to_role tag = some role →
      edgeFor ("spo:" ++ (fs[i]).verb ++ "@" ++
          ("e" ++ toString (st.eid_counter + i)))
        ("e" ++ toString (st.eid_counter + i)) w role ∈
        (fs.foldl (processFrame r s) st).edges := by
  intro fs
  induction fs with
  | nil => intro st i hi; simp at hi
  | cons fr rest ih =>
    intro st i hi w tag role hmem hrole
    rw [List.foldl_cons]
    rcases i with _ | i
    · simp only [List.getElem_cons_zero] at hmem ⊢
      rw [Nat.add_zero]
      refine foldlRec (P := fun a : AsmState => _ ∈ a.edges)
        (f := processFrame r s)
        (fun a b ha => processFrame_edges_mono r s a b _ ha) rest _ ?_
      exact processFrame_edge_mem r s st fr w tag role hmem hrole
    · simp only [List.getElem_cons_succ] at hmem ⊢
      have := ih (processFrame r s st fr) i (by simpa using hi) w tag role
        hmem hrole
      rw [processFrame_counter] at this
      have harr : st.eid_counter + 1 + i = st.eid_counter + (i + 1) := by omega
      rw [harr] at this
      exact this

/-- `_get_eid` never touches the tuples list. -/
theorem getEid_tuples (u : Nat → String) (st : RMState) (p : String) :
    ((getEid u st p).2).tuples = st.tuples := by
  unfold getEid
  rcases h : st.memo.lookup p with _ | e <;> simp

/-- `_get_eid` leaves an existing memo entry untouched. -/
theorem getEid_memo_mono (u : Nat → String) (st : RMState) (p q e : String)
    (h : st.memo.lookup q = some e) :
    ((getEid u st p).2).memo.lookup q = some e := by
  unfold getEid
  rcases hl : st.memo.lookup p with _ | v
  · simp [lookupAppend, h]
  · simpa using h

/-- After `_get_eid`, the memo maps the queried predicate to the returned
event id. -/
theorem getEid_lookup_self (u : Nat → String) (st : RMState) (p : String) :
    ((getEid u st p).2).memo.lookup p = some (getEid u st p).1 := by
  unfold getEid
  rcases hl : st.memo.lookup p with _ | v
  · simp [lookupAppend, hl, List.lookup]
  · simpa using hl

/-- Unfolding lemma: the tuples list after one `rmStep`. -/
theorem rmStep_tuples (u : Nat → String) (st : RMState) (fr : RMFrame) :
    (rmStep u st fr).tuples =
      st.tuples ++
        [{ eid := (getEid u st fr.predicate).1, role := fr.role,
           span := pyStrip fr.span }] := by
  unfold rmStep
  rcases h : getEid u st fr.predicate with ⟨e, st2⟩
  have : st2.tuples = st.tuples := by
    have := getEid_tuples u st fr.predicate
    rw [h] at this
    exact this
  simp [this]

/-- Unfolding lemma: the memo after one `rmStep` is the memo `_get_eid`
produced. -/
theorem rmStep_memo (u : Nat → String) (st : RMState) (fr : RMFrame) :
    (rmStep u st fr).memo = ((getEid u st fr.predicate).2).memo := by
  unfold rmStep
  rcases h : getEid u st fr.predicate with ⟨e, st2⟩
  simp

/-- Unfolding lemma: the draw counter after one `rmStep`. -/
theorem rmStep_draws (u : Nat → String) (st : RMState) (fr : RMFrame) :
    (rmStep u st fr).draws = ((getEid u st fr.predicate).2).draws := by
  unfold rmStep
  rcases h : getEid u st fr.predicate with ⟨e, st2⟩
  simp

/-- `rmStep` leaves an existing memo entry untouched. -/
theorem rmStep_memo_mono (u : Nat → String) (st : RMState) (fr : RMFrame)
    (q e : String) (h : st.memo.lookup q = some e) :
    (rmStep u st fr).memo.lookup q = some e := by
  rw [rmStep_memo]
  exact getEid_memo_mono u st fr.predicate q e h

/-- The tuples the frame loop of `RuleMapStage.run` generates, one per
frame, as a recursion mirroring the fold (proof device). -/
def rmTuples (u : Nat → String) : RMState → List RMFrame → List RMTuple
  | _, [] => []
  | st, fr :: rest =>
    { eid := (getEid u st fr.predicate).1, role := fr.role,
      span := pyStrip fr.span } :: rmTuples u (rmStep u st fr) rest

/-- One tuple per frame. -/
theorem rmTuples_length (u : Nat → String) :
    ∀ (fs : List RMFrame) (st : RMState),
      (rmTuples u st fs).length = fs.length := by
  intro fs
  induction fs with
  | nil => intro st; rfl
  | cons fr rest ih => intro st; simp [rmTuples, ih]

/-- The frame fold of `RuleMapStage.run` appends exactly the mirrored
tuples. -/
theorem foldRm_tuples (u : Nat → String) :
    ∀ (fs : List RMFrame) (st : RMState),
      (fs.foldl (rmStep u) st).tuples = st.tuples ++ rmTuples u st fs := by
  intro fs
  induction fs with
  | nil => intro st; simp [rmTuples]
  | cons fr rest ih =>
    intro st
    rw [List.foldl_cons, ih, rmStep_tuples, rmTuples]
    simp

/-- After the frame fold, the memo sends each frame's predicate to the
event id recorded in that frame's tuple: the id is memoised per
predicate text. -/
theorem foldRm_memo_lookup (u : Nat → String) :
    ∀ (fs : List RMFrame) (st : RMState) (m : Nat) (hm : m < fs.length),
      (fs.foldl (rmStep u) st).memo.lookup ((fs[m]).predicate) =
        some (((rmTuples u st fs).getD m
          { eid := "", role := "", span := "" }).eid) := by
  intro fs
  induction fs with
  | nil => intro st m hm; simp at hm
  | cons fr rest ih =>
    intro st m hm
    rcases m with _ | m
    · rw [List.foldl_cons]
      simp only [List.getElem_cons_zero, rmTuples, List.getD_cons_zero]
      refine foldlRec
        (P := fun a : RMState =>
          a.memo.lookup fr.predicate =
            some (getEid u st fr.predicate).1)
        (f := rmStep u)
        (fun a b ha => rmStep_memo_mono u a b fr.predicate _ ha) rest _ ?_
      show (rmStep u st fr).memo.lookup fr.predicate =
        some (getEid u st fr.predicate).1
      rw [rmStep_memo]
      exact getEid_lookup_self u st fr.predicate
    · rw [List.foldl_cons]
      simp only [List.getElem_cons_succ, rmTuples, List.getD_cons_succ]
      exact ih (rmStep u st fr) m (by simpa using hm)

/-- `_get_eid` on a memo hit: returns the memoised id, state unchanged. -/
theorem getEid_hit (u : Nat → String) (st : RMState) (p e : String)
    (h : st.memo.lookup p = some e) : getEid u st p = (e, st) := by
  unfold getEid
  rw [h]

/-- `_get_eid` on a memo miss: consumes one `uuid4` draw, truncated to 8
characters, and memoises it. -/
theorem getEid_miss (u : Nat → String) (st : RMState) (p : String)
    (h : st.memo.lookup p = none) :
    getEid u st p =
      (pyTake 8 (u st.draws),
       { st with memo := st.memo ++ [(p, pyTake 8 (u st.draws))], draws := st.draws + 1 }) := by
  unfold getEid
  rw [h]

/-- `rmStep` on a memoised predicate: only the tuple is appended. -/
theorem rmStep_hit (u : Nat → String) (st : RMState) (fr : RMFrame)
    (e : String) (h : st.memo.lookup fr.predicate = some e) :
    rmStep u st fr =
      { st with tuples := st.tuples ++ [{ eid := e, role := fr.role, span := pyStrip fr.span }] } := by
  unfold rmStep
  rw [getEid_hit u st fr.predicate e h]

/-- `rmStep` on a first-seen predicate: one draw is consumed, the memo
grows by one entry, and the tuple carries the fresh id. -/
theorem rmStep_miss (u : Nat → String) (st : RMState) (fr : RMFrame)
    (h : st.memo.lookup fr.predicate = none) :
    rmStep u st fr =
      { memo := st.memo ++ [(fr.predicate, pyTake 8 (u st.draws))], draws := st.draws + 1,
        tuples := st.tuples ++ [{ eid := pyTake 8 (u st.draws), role := fr.role, span := pyStrip fr.span }] } := by
  unfold rmStep
  rw [getEid_miss u st fr.predicate h]

/-- A first-occurrence predicate (relative to the current memo) receives
the next fresh draw of the uuid supply: the `m`-th tuple's event id is
`uuids` evaluated at the number of draws consumed so far. -/
theorem rmTuples_fresh (u : Nat → String) :
    ∀ (fs : List RMFrame) (st : RMState) (m : Nat) (hm : m < fs.length),
      st.memo.lookup ((fs[m]).predicate) = none →
      ((fs.take m).map RMFrame.predicate).contains ((fs[m]).predicate) =
        false →
      ((rmTuples u st fs).getD m { eid := "", role := "", span := "" }).eid =
        pyTake 8 (u (st.draws +
          (newPreds (st.memo.map Prod.fst) (fs.take m)).length)) := by
  intro fs
  induction fs with
  | nil => intro st m hm; simp at hm
  | cons fr rest ih =>
    intro st m hm hnone hcont
    rcases m with _ | m
    · simp only [List.getElem_cons_zero] at hnone
      simp only [rmTuples, List.getD_cons_zero, List.take_zero, newPreds,
        List.length_nil, Nat.add_zero]
      rw [getEid_miss u st fr.predicate hnone]
    · have hm2 : m < rest.length := by simpa using hm
      simp only [List.getElem_cons_succ] at hnone hcont ⊢
      simp only [rmTuples, List.getD_cons_succ, List.take_succ_cons,
        List.map_cons]
      simp only [List.take_succ_cons, List.map_cons] at hcont
      have hcont2 :
          (((rest.take m).map RMFrame.predicate).contains
            ((rest[m]).predicate)) = false := by
        simp only [List.contains_cons, Bool.or_eq_false_iff] at hcont
        exact hcont.2
      have hne : ((rest[m]).predicate == fr.predicate) = false := by
        simp only [List.contains_cons, Bool.or_eq_false_iff] at hcont
        exact hcont.1
      rcases hsk : st.memo.lookup fr.predicate with _ | e
      · -- first sight of `fr.predicate`: one draw is consumed
        rw [rmStep_miss u st fr hsk]
        have hnone2 :
            ({ memo := st.memo ++ [(fr.predicate, pyTake 8 (u st.draws))], draws := st.draws + 1,
               tuples := st.tuples ++ [{ eid := pyTake 8 (u st.draws), role := fr.role, span := pyStrip fr.span }] } :
              RMState).memo.lookup ((rest[m]).predicate) = none := by
          simp only [lookupAppend, hnone, List.lookup, hne]
        rw [ih _ m hm2 hnone2 hcont2]
        have hseen : (st.memo.map Prod.fst).contains fr.predicate = false := by
          rw [← lookupNone]
          exact hsk
        simp only [newPreds, hseen, Bool.false_eq_true, if_false,
          List.length_cons, List.map_append, List.map_cons, List.map_nil]
        ring_nf
      · -- memoised predicate: no draw is consumed
        rw [rmStep_hit u st fr e hsk]
        rw [ih { st with tuples := st.tuples ++ [{ eid := e, role := fr.role, span := pyStrip fr.span }] } m hm2 hnone hcont2]
        have hseen : (st.memo.map Prod.fst).contains fr.predicate = true := by
          rcases lookupNone st.memo fr.predicate with ⟨h1, h2⟩
          rcases hb : (st.memo.map Prod.fst).contains fr.predicate
          · rw [h2 hb] at hsk
            cases hsk
          · rfl
        simp only [newPreds]
        rw [if_pos hseen]

/-! ## The claims -/

set_option maxRecDepth 1000000 in
/-- C1 (counterexample): the claim says every `to_json` payload contains
exactly one node with `ntype = "chv"`.  On the sentence `"Hi."` with zero
frames, the payload contains zero `chv`-typed nodes, not one. -/
theorem C1_counterexample :
    ((to_json (fun a => a) (fun _ => []) [] "Hi.").nodes.countP
        (fun n => n.ntype == "chv")) ≠ 1 ∧
    ((to_json (fun a => a) (fun _ => []) [] "Hi.").nodes.countP
        (fun n => n.ntype == "chv")) = 0 := by
  constructor <;> decide

/-- C1 (amended): `to_json` never constructs a `chv` anchor node — every
payload it produces contains exactly **zero** `chv`-typed nodes, for
every sentence, frame list, alias resolver and encoder.  (The payload's
sentence-level `chv` vector field exists, but no node of
`ntype = "chv"` is ever built.) -/
theorem C1_amended (r : String → String)
    (e : List (String × String) → List Int) (fs : List Frame) (s : String) :
    ((to_json r e fs s).nodes.countP (fun n => n.ntype == "chv")) = 0 := by
  rw [List.countP_eq_zero]
  intro n hn
  rcases to_json_nodes r e fs s n hn with ⟨h1, _⟩ | ⟨h1, _⟩ <;> simp [h1]

/-- C2 (counterexample): the claim says the placeholder produced for a
zero-frame sentence carries an identifier derived from a stable hash of
the sentence text, identical across runs.  For the tuple builder
`RuleMapStage.run` this is false: the stub tuple's event id comes from
`str(uuid.uuid4())[:8]`, operating-system randomness, so two runs whose
uuid draws differ yield different placeholder ids for the same (empty)
input. -/
theorem C2_counterexample :
    ¬ (∀ u1 u2 : Nat → String,
        ((rulemapRun u1 [] [] true).1.map RMTuple.eid) =
          ((rulemapRun u2 [] [] true).1.map RMTuple.eid)) := by
  intro h
  exact absurd (h (fun _ => "aaaaaaaa") (fun _ => "bbbbbbbb")) (by decide)

/-- C2 (amended): with stubbing allowed and zero frames, exactly one
placeholder is synthesised in each component, but only the payload
assembler's stub id is hash-derived and deterministic:

* `RuleMapStage.run` appends exactly one tuple
  `{"eid": str(uuid.uuid4())[:8], "role": "SentenceStub", "span": "[stub]"}`
  — its id is the next uuid draw, not a hash of the sentence;
* `to_json` builds exactly one stub node whose id is
  `"stub:" + md5(sentence)[:6]`, a function of the sentence text alone
  (independent of the alias resolver and encoder), hence identical
  across runs on the same sentence text. -/
theorem C2_amended :
    (∀ (u : Nat → String) (am : List (String × String)),
      (rulemapRun u [] am true).1 =
        [attachAlias am
          { eid := pyTake 8 (u 0), role := "SentenceStub", span := "[stub]" }]) ∧
    (∀ (r : String → String) (e : List (String × String) → List Int)
        (s : String),
      (to_json r e [] s).nodes =
        [{ id := "stub:" ++ pyTake 6 (md5hex s), filler := s,
           alias_key := pyLower s, roles := ["Sentence"],
           ntype := "SentenceStub" }]) := by
  constructor
  · intro u am
    rfl
  · intro r e s
    rfl

/-- C3 (counterexample): the claim says a Predicate node's offsets are
recovered at or after a monotonically advancing search cursor, so a
repeated predicate word receives a later occurrence.  The code calls
`sentence.find(pred)` with no cursor: on
`"runs and runs again now"` with two `"runs"` frames, both Predicate
nodes receive `char_start = 0`, whereas the spec's cursor semantics
demands `[0, 9]`. -/
theorem C3_counterexample :
    predicateStarts (to_json (fun a => a) (fun _ => [])
        [{ verb := "runs", words := [], tags := [] },
         { verb := "runs", words := [], tags := [] }]
        "runs and runs again now") = [0, 0] ∧
    spec_cursor_starts "runs and runs again now"
        [{ verb := "runs", words := [], tags := [] },
         { verb := "runs", words := [], tags := [] }] = [0, 9] ∧
    ([0, 0] : List Int) ≠ [0, 9] := by
  constructor
  · decide
  · constructor <;> decide

/-- C3 (amended): every Predicate node's `char_start` is
`sentence.find(pred)` — the first occurrence of the predicate span in
the whole sentence, with no running cursor — and `char_end` is that
index plus the span length; repeated predicate words therefore always
receive the offset of the first occurrence. -/
theorem C3_amended (r : String → String)
    (e : List (String × String) → List Int) (fs : List Frame) (s : String)
    (n : Node) (hn : n ∈ (to_json r e fs s).nodes)
    (hp : n.roles = ["Predicate"]) :
    n.char_start = pyFind s n.filler ∧
    n.char_end = pyFind s n.filler + (n.filler.length : Int) := by
  rcases to_json_nodes r e fs s n hn with ⟨_, h2, _⟩ | ⟨_, h⟩
  · rw [hp] at h2
    simp at h2
  · exact h hp

/-- Witness for C3 (amended): the Predicate node of a one-frame payload,
with both hypotheses discharged by evaluation. -/
theorem C3_witness :
    ({ id := "spo:runs@e1", filler := "runs", alias_key := "runs",
       roles := ["Predicate"], eid_set := ["e1"], char_start := 2,
       char_end := 6 } : Node).char_start = pyFind "a runs." "runs" ∧
    ({ id := "spo:runs@e1", filler := "runs", alias_key := "runs",
       roles := ["Predicate"], eid_set := ["e1"], char_start := 2,
       char_end := 6 } : Node).char_end =
      pyFind "a runs." "runs" + (("runs" : String).length : Int) :=
  C3_amended (fun a => a) (fun _ => [])
    [{ verb := "runs", words := [], tags := [] }] "a runs."
    { id := "spo:runs@e1", filler := "runs", alias_key := "runs",
      roles := ["Predicate"], eid_set := ["e1"], char_start := 2,
      char_end := 6 }
    (by decide) (by decide)

/-- C5 (counterexample): the claim says `layouts.hulls` holds one hull
per distinct observed event id, with the member node ids.  On a
one-frame payload the observed event ids are `["e1"]` but the hull list
is empty, so no hull exists at all. -/
theorem C5_counterexample :
    ¬ (((to_json (fun a => a) (fun _ => [])
          [{ verb := "runs", words := ["cats"], tags := ["B-ARG0"] }]
          "cats runs.").layouts.hulls.map Hull.eid) =
        (observedEids (to_json (fun a => a) (fun _ => [])
          [{ verb := "runs", words := ["cats"], tags := ["B-ARG0"] }]
          "cats runs.")).map some ∧
       (∀ h ∈ (to_json (fun a => a) (fun _ => [])
          [{ verb := "runs", words := ["cats"], tags := ["B-ARG0"] }]
          "cats runs.").layouts.hulls,
         h.members =
           ((to_json (fun a => a) (fun _ => [])
              [{ verb := "runs", words := ["cats"], tags := ["B-ARG0"] }]
              "cats runs.").nodes.filter
             (fun n =>
               match h.eid with
               | some ee => n.eid_set.contains ee
               | none => false)).map Node.id)) := by
  intro hcl
  exact absurd hcl.1 (by decide)

/-- C5 (amended): `to_json` performs no hull collection whatsoever — the
`layouts` dictionary it returns is always the literal `{"hulls": []}`,
whatever event ids were observed during assembly. -/
theorem C5_amended (r : String → String)
    (e : List (String × String) → List Int) (fs : List Frame) (s : String) :
    (to_json r e fs s).layouts.hulls = [] := rfl

set_option maxRecDepth 1000000 in
/-- C7 (code divergence): the claim (and the schema's own field
documentation, `-1 if not in text`) says ungrounded nodes carry
`char_start = char_end = -1`.  The code diverges in both ungrounded
situations: the synthetic `SentenceStub` node keeps the pydantic
defaults `char_start = char_end = 0`, and a span that does not occur in
the sentence gets `char_start = -1` but
`char_end = -1 + len(span) ≠ -1`. -/
theorem C7_code_divergence :
    ((to_json (fun a => a) (fun _ => []) [] "Hi.").nodes.map
        (fun n => (n.char_start, n.char_end)) = [(0, 0)]) ∧
    ((to_json (fun a => a) (fun _ => [])
        [{ verb := "likes", words := ["dog"], tags := ["B-ARG0"] }]
        "cat sits.").nodes.map
        (fun n => (n.char_start, n.char_end)) = [(-1, 4), (-1, 2)]) := by
  constructor <;> decide

/-- C4 (counterexample): the claim says the edge kind is `P-O` for every
mapped non-Subject role, including `IndirectObject` and `Attr`.  The
code computes `{"Subject": "S-P", "Object": "P-O"}.get(role, "attr")`:
a `B-ARGM-LOC` argument (role `IndirectObject`) yields an edge of kind
`"attr"`, not `"P-O"`. -/
theorem C4_counterexample :
    (to_json (fun a => a) (fun _ => [])
        [{ verb := "likes", words := ["cat", "mat"],
           tags := ["B-ARG0", "B-ARGM-LOC"] }]
        "cat likes mat.").edges =
      [{ source := "spo:cat@e1", target := "spo:likes@e1", kind := "S-P" },
       { source := "spo:mat@e1", target := "spo:likes@e1", kind := "attr" }] ∧
    ¬ (∀ ed ∈ (to_json (fun a => a) (fun _ => [])
        [{ verb := "likes", words := ["cat", "mat"],
           tags := ["B-ARG0", "B-ARGM-LOC"] }]
        "cat likes mat.").edges, ed.kind = "S-P" ∨ ed.kind = "P-O") := by
  constructor
  · decide
  · decide

/-- C4 (amended): the BIO-tag-to-role table is exactly as claimed
(`B-ARG0 → Subject`, `B-ARG1`/`B-ARG2` → `Object`,
`B-ARGM-LOC → IndirectObject`, `B-ARGM-MNR → Attr`, unrecognized tags
yield no role and the word is skipped without rejection), but the edge
kind is `S-P` for `Subject`, `P-O` for `Object`, and `"attr"` — not
`P-O` — for `IndirectObject` and `Attr`
(`{"Subject": "S-P", "Object": "P-O"}.get(role, "attr")`); each edge is
scoped to its frame's event id `e(i+1)` through the node ids. -/
theorem C4_amended :
    (propbank_to_role "B-ARG0" = some "Subject" ∧
     propbank_to_role "B-ARG1" = some "Object" ∧
     propbank_to_role "B-ARG2" = some "Object" ∧
     propbank_to_role "B-ARGM-LOC" = some "IndirectObject" ∧
     propbank_to_role "B-ARGM-MNR" = some "Attr" ∧
     propbank_to_role "O" = none ∧ propbank_to_role "B-V" = none) ∧
    (∀ (r : String → String) (s eid pid : String) (st : AsmState)
        (w tag : String), propbank_to_role tag = none →
      processArg r s eid pid st (w, tag) = st) ∧
    (∀ (r : String → String) (e : List (String × String) → List Int)
        (fs : List Frame) (s : String) (i : Nat) (hi : i < fs.length)
        (w tag role : String),
      (w, tag) ∈ (fs[i]).words.zip (fs[i]).tags →
      propbank_to_role tag = some role →
      edgeFor ("spo:" ++ (fs[i]).verb ++ "@" ++ ("e" ++ toString (i + 1)))
          ("e" ++ toString (i + 1)) w role ∈ (to_json r e fs s).edges) := by
  refine ⟨⟨rfl, rfl, rfl, rfl, rfl, rfl, rfl⟩,
    fun r s eid pid st w tag h => processArg_none r s eid pid st w tag h, ?_⟩
  intro r e fs s i hi w tag role hmem hrole
  have hne : fs.isEmpty = false := by
    cases fs
    · simp at hi
    · rfl
  have hedges : (to_json r e fs s).edges =
      (if fs.isEmpty then
        ({ nodes := [{ id := "stub:" ++ pyTake 6 (md5hex s), filler := s,
                       alias_key := pyLower s, roles := ["Sentence"],
                       ntype := "SentenceStub" }] } : AsmState)
      else fs.foldl (processFrame r s) {}).edges := rfl
  rw [hedges, hne]
  simp only [Bool.false_eq_true, if_false]
  have key := foldFrames_edge_mem r s fs ({} : AsmState) i hi w tag role hmem
    hrole
  rw [show ({} : AsmState).eid_counter + i = i + 1 + 0 from by
    show 1 + i = i + 1 + 0
    omega] at key
  simpa using key

/-- Witness for C4 (amended): the `B-ARGM-LOC` argument of a concrete
one-frame payload produces its `attr`-kind edge. -/
theorem C4_witness :
    edgeFor ("spo:" ++
        (([{ verb := "likes", words := ["cat", "mat"],
             tags := ["B-ARG0", "B-ARGM-LOC"] }] :
            List Frame)[0]).verb ++ "@" ++ ("e" ++ toString (0 + 1)))
      ("e" ++ toString (0 + 1)) "mat" "IndirectObject" ∈
      (to_json (fun a => a) (fun _ => [])
        [{ verb := "likes", words := ["cat", "mat"],
           tags := ["B-ARG0", "B-ARGM-LOC"] }] "cat likes mat.").edges :=
  C4_amended.2.2 (fun a => a) (fun _ => [])
    [{ verb := "likes", words := ["cat", "mat"],
       tags := ["B-ARG0", "B-ARGM-LOC"] }]
    "cat likes mat." 0 (by decide) "mat" "B-ARGM-LOC" "IndirectObject"
    (by decide) (by decide)

/-- C6 (counterexample): the claim says two frames with the same
predicate text receive the same event id.  In the graph assembler
`to_json`, event ids are the per-frame counter values `e1, e2, …`
regardless of the predicate text: two `"runs"` frames receive the
distinct event ids `e1` and `e2`. -/
theorem C6_counterexample :
    ((to_json (fun a => a) (fun _ => [])
        [{ verb := "runs", words := [], tags := [] },
         { verb := "runs", words := [], tags := [] }]
        "runs and runs").nodes.map Node.eid_set) = [["e1"], ["e2"]] ∧
    (["e1"] : List String) ≠ ["e2"] := by
  constructor <;> decide

/-- The alias pass never changes a tuple's `eid`. -/
theorem attachAlias_eid (am : List (String × String)) (t : RMTuple) :
    (attachAlias am t).eid = t.eid := by
  unfold attachAlias
  rcases h : am.lookup (pyLower t.span) with _ | a
  · rfl
  · by_cases ha : a == ""
    · simp [ha]
    · simp [ha]

/-- C6 (amended): deterministic event ids per predicate hold in the
rule-map stage `RuleMapStage.run` (not in the graph assembler): frames
with the same predicate text receive the same memoised event id, and a
first-occurrence predicate receives `str(uuid.uuid4())[:8]` for the
draw indexed by the number of distinct predicates seen before it. -/
theorem C6_amended (u : Nat → String) (fs : List RMFrame)
    (am : List (String × String)) (stub : Bool) (i j : Nat)
    (hi : i < fs.length) (hj : j < fs.length) :
    ((fs[i]).predicate = (fs[j]).predicate →
      ((rulemapRun u fs am stub).1[i]?).map RMTuple.eid =
        ((rulemapRun u fs am stub).1[j]?).map RMTuple.eid) ∧
    (((fs.take i).map RMFrame.predicate).contains ((fs[i]).predicate) =
        false →
      ((rulemapRun u fs am stub).1[i]?).map RMTuple.eid =
        some (pyTake 8 (u (newPreds [] (fs.take i)).length))) := by
  have hlen := rmTuples_length u fs ({} : RMState)
  have hfold := foldRm_tuples u fs ({} : RMState)
  have hne : ((fs.foldl (rmStep u) {}).tuples).isEmpty = false := by
    rw [hfold]
    cases h : rmTuples u ({} : RMState) fs with
    | nil => exact absurd hi (by rw [h] at hlen; simp at hlen; omega)
    | cons a t => rfl
  have htup : (rulemapRun u fs am stub).1 =
      (rmTuples u ({} : RMState) fs).map (attachAlias am) := by
    simp only [rulemapRun]
    rw [hne]
    simp only [Bool.and_false, Bool.false_eq_true, if_false]
    rw [hfold]
    rfl
  have hidx : ∀ m, m < fs.length →
      ((rulemapRun u fs am stub).1[m]?).map RMTuple.eid =
        some (((rmTuples u ({} : RMState) fs).getD m
          { eid := "", role := "", span := "" }).eid) := by
    intro m hm
    have hm2 : m < (rmTuples u ({} : RMState) fs).length := by
      rw [hlen]; omega
    rw [htup, List.getElem?_map, List.getElem?_eq_getElem hm2]
    rw [List.getD_eq_getElem _ _ hm2]
    simp [attachAlias_eid]
  constructor
  · intro hpred
    have h1 := foldRm_memo_lookup u fs ({} : RMState) i hi
    have h2 := foldRm_memo_lookup u fs ({} : RMState) j hj
    rw [hpred] at h1
    rw [h1] at h2
    have heq := Option.some.inj h2
    rw [hidx i hi, hidx j hj, heq]
  · intro hfirst
    have hnone : (({} : RMState)).memo.lookup ((fs[i]).predicate) = none :=
      rfl
    have hf := rmTuples_fresh u fs ({} : RMState) i hi hnone hfirst
    have hdr : (({} : RMState)).draws +
        (newPreds ((({} : RMState)).memo.map Prod.fst) (fs.take i)).length =
        (newPreds [] (fs.take i)).length := by
      show 0 + (newPreds [] (fs.take i)).length = _
      exact Nat.zero_add _
    rw [hidx i hi, hf, hdr]

/-- Witness for C6 (amended): two concrete frames sharing the predicate
`run` receive the same event id. -/
theorem C6_witness :
    ((rulemapRun (fun n => toString (n + 10000000))
        [{ predicate := "run", role := "Subject", span := "dog" },
         { predicate := "run", role := "Object", span := "cat" }]
        [] false).1[0]?).map RMTuple.eid =
      ((rulemapRun (fun n => toString (n + 10000000))
        [{ predicate := "run", role := "Subject", span := "dog" },
         { predicate := "run", role := "Object", span := "cat" }]
        [] false).1[1]?).map RMTuple.eid :=
  (C6_amended (fun n => toString (n + 10000000))
    [{ predicate := "run", role := "Subject", span := "dog" },
     { predicate := "run", role := "Object", span := "cat" }]
    [] false 0 1 (by decide) (by decide)).1 (by decide)

set_option maxHeartbeats 4000000 in
/-- C8 (confirmed): a sentence yielding zero frames makes `to_json` emit a
single node of ntype `SentenceStub`, a value outside the five-element
`ntype` enumeration of `chv_v24.json`, so the stub-only payload fails
schema validation — with the out-of-enum error (and the stray top-level
`chv` key, which the closed schema also rejects) among the reported
errors and `ok = false`. -/
theorem C8_confirmed (r : String → String)
    (e : List (String × String) → List Int) (s : String) :
    (to_json r e [] s).nodes.map Node.ntype = ["SentenceStub"] ∧
    ntypeEnum.contains "SentenceStub" = false ∧
    (validate_payload (Payload.toJson (to_json r e [] s))).2 =
      [VError.additionalProperty "chv",
       VError.enumViolation "ntype" "SentenceStub"] ∧
    (validate_payload (Payload.toJson (to_json r e [] s))).1 = false :=
  ⟨rfl, rfl, rfl, rfl⟩

set_option maxHeartbeats 4000000 in
/-- C9 (confirmed, against the spec-modelled validator): a payload whose
node object lacks the `filler` key fails validation with
`requiredProperty "filler"` among the errors and `ok = false`. -/
theorem C9_confirmed (nd : List (String × Json))
    (h : ((nd.map Prod.fst).contains "filler") = false) :
    (validate_payload (Json.obj
      [("version", Json.str "2.4"), ("sentence", Json.str "demo"),
       ("nodes", Json.arr [Json.obj nd]),
       ("edges", Json.arr [])])).1 = false ∧
    VError.requiredProperty "filler" ∈
      (validate_payload (Json.obj
        [("version", Json.str "2.4"), ("sentence", Json.str "demo"),
         ("nodes", Json.arr [Json.obj nd]),
         ("edges", Json.arr [])])).2 := by
  have hmem0 : VError.requiredProperty "filler" ∈
      (nodeRequired.filter
        (fun k => !(nd.map Prod.fst).contains k)).map
        VError.requiredProperty := by
    apply List.mem_map_of_mem
    apply List.mem_filter.mpr
    refine ⟨by decide, ?_⟩
    show (!(nd.map Prod.fst).contains "filler") = true
    rw [h]
    rfl
  have hmem1 : VError.requiredProperty "filler" ∈ checkNode (Json.obj nd) :=
    List.mem_append_left _ (List.mem_append_left _ (List.mem_append_left _
      (List.mem_append_left _ (List.mem_append_left _ (List.mem_append_left _
        (List.mem_append_left _ (List.mem_append_left _ hmem0)))))))
  have hmemfull : VError.requiredProperty "filler" ∈
      (validate_payload (Json.obj
        [("version", Json.str "2.4"), ("sentence", Json.str "demo"),
         ("nodes", Json.arr [Json.obj nd]),
         ("edges", Json.arr [])])).2 :=
    List.mem_append_left _ (List.mem_append_left _
      (List.mem_append_right _ (List.mem_append_left _ hmem1)))
  refine ⟨?_, hmemfull⟩
  cases hv : (validate_payload (Json.obj
      [("version", Json.str "2.4"), ("sentence", Json.str "demo"),
       ("nodes", Json.arr [Json.obj nd]),
       ("edges", Json.arr [])])).2 with
  | nil => rw [hv] at hmemfull; simp at hmemfull
  | cons a t =>
    show ((validate_payload (Json.obj
      [("version", Json.str "2.4"), ("sentence", Json.str "demo"),
       ("nodes", Json.arr [Json.obj nd]),
       ("edges", Json.arr [])])).2).isEmpty = false
    rw [hv]
    rfl

set_option maxHeartbeats 4000000 in
/-- Witness for C9: a concrete node object carrying every required key
except `filler` is rejected with the `filler` required-property error. -/
theorem C9_witness :
    (validate_payload (Json.obj
      [("version", Json.str "2.4"), ("sentence", Json.str "demo"),
       ("nodes", Json.arr [Json.obj
         [("id", Json.str "n0"), ("roles", Json.arr []),
          ("eid_set", Json.arr []), ("ntype", Json.str "spo")]]),
       ("edges", Json.arr [])])).1 = false ∧
    VError.requiredProperty "filler" ∈
      (validate_payload (Json.obj
        [("version", Json.str "2.4"), ("sentence", Json.str "demo"),
         ("nodes", Json.arr [Json.obj
           [("id", Json.str "n0"), ("roles", Json.arr []),
            ("eid_set", Json.arr []), ("ntype", Json.str "spo")]]),
         ("edges", Json.arr [])])).2 :=
  C9_confirmed
    [("id", Json.str "n0"), ("roles", Json.arr []),
     ("eid_set", Json.arr []), ("ntype", Json.str "spo")] (by decide)

/-- C10 (counterexample): the claim says `chv` is an optional top-level
key, but the schema document lists only
`version, sentence, nodes, edges, layouts` under `properties` and sets
`"additionalProperties": false`, so a payload carrying a top-level
`chv` key is rejected as an unknown key. -/
theorem C10_counterexample :
    (validate_payload (Json.obj
      [("version", Json.str "2.4"), ("sentence", Json.str "demo"),
       ("nodes", Json.arr []), ("edges", Json.arr []),
       ("chv", Json.arr [])])).1 = false ∧
    VError.additionalProperty "chv" ∈
      (validate_payload (Json.obj
        [("version", Json.str "2.4"), ("sentence", Json.str "demo"),
         ("nodes", Json.arr []), ("edges", Json.arr []),
         ("chv", Json.arr [])])).2 := by
  constructor
  · rfl
  · decide

set_option maxHeartbeats 4000000 in
/-- C10 (amended): the schema requires exactly the top-level keys
`version, sentence, nodes, edges`; the only other declared top-level
key is `layouts` (`chv` is not declared, so it is rejected like any
other unknown key); an accepted payload carries every required key and
only declared keys; and unknown keys inside node and edge objects are
tolerated. -/
theorem C10_amended :
    (∀ kvs : List (String × Json),
      (validate_payload (Json.obj kvs)).1 = true →
        (∀ k ∈ topRequired, (kvs.map Prod.fst).contains k = true) ∧
        (∀ k ∈ kvs.map Prod.fst, topProperties.contains k = true)) ∧
    topProperties = ["version", "sentence", "nodes", "edges", "layouts"] ∧
    (validate_payload (Json.obj
      [("version", Json.str "2.4"), ("sentence", Json.str "demo"),
       ("nodes", Json.arr [Json.obj
         [("id", Json.str "n0"), ("filler", Json.str "dog"),
          ("roles", Json.arr [Json.str "Subject"]),
          ("eid_set", Json.arr [Json.str "e1"]),
          ("ntype", Json.str "spo"), ("color", Json.str "extra")]]),
       ("edges", Json.arr [Json.obj
         [("source", Json.str "n0"), ("target", Json.str "n1"),
          ("kind", Json.str "S-P"), ("weight", Json.int 3)]]),
       ("layouts", Json.obj [("hulls", Json.arr [])])])).1 = true := by
  refine ⟨?_, rfl, by decide⟩
  intro kvs hok
  have h2 : (validate_payload (Json.obj kvs)).2 = [] := by
    cases hv : (validate_payload (Json.obj kvs)).2 with
    | nil => rfl
    | cons a t =>
      exfalso
      have hie : ((validate_payload (Json.obj kvs)).2).isEmpty = true := hok
      rw [hv] at hie
      simp at hie
  constructor
  · intro k hk
    cases hcv : (kvs.map Prod.fst).contains k with
    | false =>
      exfalso
      have hmem : VError.requiredProperty k ∈
          (topRequired.filter
            (fun x => !(kvs.map Prod.fst).contains x)).map
            VError.requiredProperty := by
        apply List.mem_map_of_mem
        apply List.mem_filter.mpr
        refine ⟨hk, ?_⟩
        show (!(kvs.map Prod.fst).contains k) = true
        rw [hcv]
        rfl
      have hfull : VError.requiredProperty k ∈
          (validate_payload (Json.obj kvs)).2 :=
        List.mem_append_left _ (List.mem_append_left _
          (List.mem_append_left _ (List.mem_append_left _
            (List.mem_append_left _ (List.mem_append_left _ hmem)))))
      rw [h2] at hfull
      simp at hfull
    | true => rfl
  · intro k hk
    cases hcv : topProperties.contains k with
    | false =>
      exfalso
      have hmem : VError.additionalProperty k ∈
          ((kvs.map Prod.fst).filter
            (fun x => !topProperties.contains x)).map
            VError.additionalProperty := by
        apply List.mem_map_of_mem
        apply List.mem_filter.mpr
        refine ⟨hk, ?_⟩
        show (!topProperties.contains k) = true
        rw [hcv]
        rfl
      have hfull : VError.additionalProperty k ∈
          (validate_payload (Json.obj kvs)).2 :=
        List.mem_append_left _ (List.mem_append_left _
          (List.mem_append_left _ (List.mem_append_left _
            (List.mem_append_left _ (List.mem_append_right _ hmem)))))
      rw [h2] at hfull
      simp at hfull
    | true => rfl

/-- Witness for C10 (amended): a concrete accepted payload carries all
four required top-level keys, and only declared keys. -/
theorem C10_witness :
    (∀ k ∈ topRequired,
      (([("version", Json.str "2.4"), ("sentence", Json.str "demo"),
         ("nodes", Json.arr []), ("edges", Json.arr [])] :
          List (String × Json)).map Prod.fst).contains k = true) ∧
    (∀ k ∈ ([("version", Json.str "2.4"), ("sentence", Json.str "demo"),
        ("nodes", Json.arr []), ("edges", Json.arr [])] :
          List (String × Json)).map Prod.fst,
      topProperties.contains k = true) :=
  C10_amended.1
    [("version", Json.str "2.4"), ("sentence", Json.str "demo"),
     ("nodes", Json.arr []), ("edges", Json.arr [])] (by decide)
